import Mathlib

/-!
Verification of the exception-to-result adapter in src/src/wrapper/mupdf.c.

The C file consists of a single macro, WRAP, which generates one forwarding
function per underlying MuPDF operation.  Each generated function runs the
underlying library call inside an fz_try region bound to the execution
context; on normal completion it returns the value produced by the call, and
if the call raises an internal exception (intercepted by fz_catch) it
returns a designated sentinel failure value instead.

Shallow embedding.  The wrapped library is external to this repository, so it
is modelled as an abstract environment (structure MuPDFLib): one
state-transforming, possibly-throwing function per underlying entry point,
over an arbitrary state type standing for everything the library and the
process can touch.  The WRAP macro body is the function WRAP below; each of
the six generated C functions is a corresponding mp_ definition.  Pointers
are modelled as natural-number addresses with 0 in the role of C NULL.
-/

/-- Error object carried by an internal MuPDF exception (fz_throw): an error
code and a message.  The adapter never inspects either field. -/
structure FzError where
  code : Int
  message : String
deriving DecidableEq, Repr

/-- Outcome of one underlying library call: either a normal return carrying a
value, or an internal exception carrying an error object. -/
inductive FzOutcome (α : Type) where
  | ok (v : α)
  | thrown (e : FzError)
deriving DecidableEq, Repr

/-- Pointer values, modelled as natural-number addresses. -/
abbrev Ptr := Nat

/-- The C null pointer. -/
def NULL : Ptr := 0

/-- fz_context pointer: the per-call execution context. -/
abbrev FzContext := Ptr

/-- fz_document pointer. -/
abbrev FzDocument := Ptr

/-- fz_page pointer. -/
abbrev FzPage := Ptr

/-- fz_outline pointer. -/
abbrev FzOutline := Ptr

/-- fz_stext_page pointer. -/
abbrev FzStextPage := Ptr

/-- fz_stream pointer. -/
abbrev FzStream := Ptr

/-- fz_stext_options pointer. -/
abbrev FzStextOptions := Ptr

/-- One underlying library call, as a state transformer: from a pre-state of
the external library and process it produces an outcome (normal value or
internal exception) together with the post-state. -/
abbrev LibCall (σ : Type) (α : Type) := σ → FzOutcome α × σ

/-- Body of a function generated by the WRAP macro (src/src/wrapper/mupdf.c,
lines 3 to 9):

  ret_type ret; fz_try (ctx) ret = call; fz_catch (ctx) ret = failure_val; return ret;

The argument ret0 models the indeterminate initial contents of the
uninitialized local variable ret; the theorems below show that it never
reaches the caller.  The result is a plain value-state pair rather than an
FzOutcome: the generated function always returns normally, so no exception
can unwind past it into the caller. -/
def WRAP {σ α : Type} (ret0 : α) (failure_val : α) (call : LibCall σ α) (s : σ) : α × σ :=
  match ret0, call s with
  | _, (FzOutcome.ok v, t) => (v, t)
  | _, (FzOutcome.thrown _, t) => (failure_val, t)

/-- The external MuPDF library, abstract to the wrapper layer: the six
underlying entry points that the C file forwards to, each a possibly-throwing
state transformer. -/
structure MuPDFLib (σ : Type) where
  fz_open_document : FzContext → String → LibCall σ FzDocument
  fz_open_document_with_stream : FzContext → String → FzStream → LibCall σ FzDocument
  fz_load_page : FzContext → FzDocument → Int → LibCall σ FzPage
  fz_load_outline : FzContext → FzDocument → LibCall σ FzOutline
  fz_count_pages : FzContext → FzDocument → LibCall σ Int
  fz_new_stext_page_from_page : FzContext → FzPage → FzStextOptions → LibCall σ FzStextPage

/-- WRAP(open_document, fz_document*, NULL, fz_open_document(ctx, path), char *path) -/
def mp_open_document {σ : Type} (lib : MuPDFLib σ) (ret0 : FzDocument)
    (ctx : FzContext) (path : String) : σ → FzDocument × σ :=
  WRAP ret0 NULL (lib.fz_open_document ctx path)

/-- WRAP(open_document_with_stream, fz_document*, NULL,
    fz_open_document_with_stream(ctx, kind, stream), const char *kind, fz_stream *stream) -/
def mp_open_document_with_stream {σ : Type} (lib : MuPDFLib σ) (ret0 : FzDocument)
    (ctx : FzContext) (kind : String) (stream : FzStream) : σ → FzDocument × σ :=
  WRAP ret0 NULL (lib.fz_open_document_with_stream ctx kind stream)

/-- WRAP(load_page, fz_page*, NULL, fz_load_page(ctx, doc, pageno),
    fz_document *doc, int pageno) -/
def mp_load_page {σ : Type} (lib : MuPDFLib σ) (ret0 : FzPage)
    (ctx : FzContext) (doc : FzDocument) (pageno : Int) : σ → FzPage × σ :=
  WRAP ret0 NULL (lib.fz_load_page ctx doc pageno)

/-- WRAP(load_outline, fz_outline*, NULL, fz_load_outline(ctx, doc), fz_document *doc) -/
def mp_load_outline {σ : Type} (lib : MuPDFLib σ) (ret0 : FzOutline)
    (ctx : FzContext) (doc : FzDocument) : σ → FzOutline × σ :=
  WRAP ret0 NULL (lib.fz_load_outline ctx doc)

/-- WRAP(count_pages, int, -1, fz_count_pages(ctx, doc), fz_document *doc) -/
def mp_count_pages {σ : Type} (lib : MuPDFLib σ) (ret0 : Int)
    (ctx : FzContext) (doc : FzDocument) : σ → Int × σ :=
  WRAP ret0 (-1) (lib.fz_count_pages ctx doc)

/-- WRAP(new_stext_page_from_page, fz_stext_page*, NULL,
    fz_new_stext_page_from_page(ctx, page, options), fz_page *page,
    fz_stext_options *options) -/
def mp_new_stext_page_from_page {σ : Type} (lib : MuPDFLib σ) (ret0 : FzStextPage)
    (ctx : FzContext) (page : FzPage) (options : FzStextOptions) : σ → FzStextPage × σ :=
  WRAP ret0 NULL (lib.fz_new_stext_page_from_page ctx page options)

/-- A record of one invocation of an underlying entry point, with the
arguments it received, in order. -/
inductive CallEvent where
  | open_document (ctx : FzContext) (path : String)
  | open_document_with_stream (ctx : FzContext) (kind : String) (stream : FzStream)
  | load_page (ctx : FzContext) (doc : FzDocument) (pageno : Int)
  | load_outline (ctx : FzContext) (doc : FzDocument)
  | count_pages (ctx : FzContext) (doc : FzDocument)
  | new_stext_page_from_page (ctx : FzContext) (page : FzPage) (options : FzStextOptions)
deriving DecidableEq, Repr

/-- Append a record of one underlying call to a trace threaded through the
state, without changing what the call does. -/
def logCall {σ α : Type} (ev : CallEvent) (call : LibCall σ α) :
    LibCall (σ × List CallEvent) α :=
  fun st =>
    match call st.1 with
    | (o, t) => (o, (t, st.2 ++ [ev]))

/-- The same abstract library, with every underlying entry point instrumented
to append a record of its invocation and its received arguments to a trace.
Used to state that each wrapper performs exactly one underlying invocation
and forwards its arguments verbatim. -/
def instrument {σ : Type} (lib : MuPDFLib σ) : MuPDFLib (σ × List CallEvent) where
  fz_open_document ctx path :=
    logCall (CallEvent.open_document ctx path) (lib.fz_open_document ctx path)
  fz_open_document_with_stream ctx kind stream :=
    logCall (CallEvent.open_document_with_stream ctx kind stream)
      (lib.fz_open_document_with_stream ctx kind stream)
  fz_load_page ctx doc pageno :=
    logCall (CallEvent.load_page ctx doc pageno) (lib.fz_load_page ctx doc pageno)
  fz_load_outline ctx doc :=
    logCall (CallEvent.load_outline ctx doc) (lib.fz_load_outline ctx doc)
  fz_count_pages ctx doc :=
    logCall (CallEvent.count_pages ctx doc) (lib.fz_count_pages ctx doc)
  fz_new_stext_page_from_page ctx page options :=
    logCall (CallEvent.new_stext_page_from_page ctx page options)
      (lib.fz_new_stext_page_from_page ctx page options)

/-- A concrete library over state Nat in which every entry point raises the
given internal exception and bumps the state. -/
def throwAll (e : FzError) : MuPDFLib Nat where
  fz_open_document _ _ s := (FzOutcome.thrown e, s + 1)
  fz_open_document_with_stream _ _ _ s := (FzOutcome.thrown e, s + 1)
  fz_load_page _ _ _ s := (FzOutcome.thrown e, s + 1)
  fz_load_outline _ _ s := (FzOutcome.thrown e, s + 1)
  fz_count_pages _ _ s := (FzOutcome.thrown e, s + 1)
  fz_new_stext_page_from_page _ _ _ s := (FzOutcome.thrown e, s + 1)

/-- A concrete library over state Nat in which every entry point returns
normally: the pointer-producing calls yield the address a, the page count
call yields n, and the state is bumped. -/
def okAll (a : Ptr) (n : Int) : MuPDFLib Nat where
  fz_open_document _ _ s := (FzOutcome.ok a, s + 1)
  fz_open_document_with_stream _ _ _ s := (FzOutcome.ok a, s + 1)
  fz_load_page _ _ _ s := (FzOutcome.ok a, s + 1)
  fz_load_outline _ _ s := (FzOutcome.ok a, s + 1)
  fz_count_pages _ _ s := (FzOutcome.ok n, s + 1)
  fz_new_stext_page_from_page _ _ _ s := (FzOutcome.ok a, s + 1)

/-- If the underlying call returns normally, the WRAP body returns its value
and post-state. -/
theorem WRAP_eq_ok {σ α : Type} (ret0 fv : α) (call : LibCall σ α) (s : σ) (v : α) (t : σ)
    (h : call s = (FzOutcome.ok v, t)) : WRAP ret0 fv call s = (v, t) := by
  simp [WRAP, h]

/-- If the underlying call raises an internal exception, the WRAP body
returns the failure value and the post-state left by the call. -/
theorem WRAP_eq_thrown {σ α : Type} (ret0 fv : α) (call : LibCall σ α) (s : σ)
    (e : FzError) (t : σ)
    (h : call s = (FzOutcome.thrown e, t)) : WRAP ret0 fv call s = (fv, t) := by
  simp [WRAP, h]

/-- On both paths, the state after the WRAP body is exactly the state left by
the one underlying call. -/
theorem WRAP_snd {σ α : Type} (ret0 fv : α) (call : LibCall σ α) (s : σ) :
    (WRAP ret0 fv call s).2 = (call s).2 := by
  rcases h : call s with ⟨o, t⟩
  cases o <;> simp [WRAP, h]

/-- The WRAP body is a function of the outcome of the underlying call alone:
equal underlying outcomes give equal results, whatever the junk in the
uninitialized local. -/
theorem WRAP_congr {σ α : Type} (r₁ r₂ fv : α) (call : LibCall σ α) (s₁ s₂ : σ)
    (h : call s₁ = call s₂) : WRAP r₁ fv call s₁ = WRAP r₂ fv call s₂ := by
  rcases h₂ : call s₂ with ⟨o, t⟩
  rw [h₂] at h
  cases o <;> simp [WRAP, h, h₂]

/-- The WRAP body never reads the junk in the uninitialized local. -/
theorem WRAP_ret0_irrel {σ α : Type} (r₁ r₂ fv : α) (call : LibCall σ α) (s : σ) :
    WRAP r₁ fv call s = WRAP r₂ fv call s := by
  rcases h : call s with ⟨o, t⟩
  cases o <;> simp [WRAP, h]

/-- Wrapping an instrumented call records exactly one invocation, appended to
the trace, and otherwise behaves as the uninstrumented wrapper. -/
theorem WRAP_logCall {σ α : Type} (r fv : α) (ev : CallEvent) (call : LibCall σ α)
    (s : σ) (tr : List CallEvent) :
    WRAP r fv (logCall ev call) (s, tr)
      = ((WRAP r fv call s).1, ((WRAP r fv call s).2, tr ++ [ev])) := by
  rcases h : call s with ⟨o, t⟩
  cases o <;> simp [WRAP, logCall, h]

/-- C1: for every wrapped operation and every input, if the underlying
library call raises an internal exception, the wrapped operation returns the
designated sentinel for its result type together with the post-state, and it
returns normally: its result type is a plain value-state pair, so no
exception unwinds past the wrapper into the caller. -/
theorem mp_exception_returns_sentinel {σ : Type} (lib : MuPDFLib σ)
    (rp : Ptr) (ri : Int) (ctx : FzContext) (path kind : String) (stream : FzStream)
    (doc : FzDocument) (pageno : Int) (page : FzPage) (options : FzStextOptions)
    (s : σ) (e : FzError) (t : σ) :
    (lib.fz_open_document ctx path s = (FzOutcome.thrown e, t) →
      mp_open_document lib rp ctx path s = (NULL, t)) ∧
    (lib.fz_open_document_with_stream ctx kind stream s = (FzOutcome.thrown e, t) →
      mp_open_document_with_stream lib rp ctx kind stream s = (NULL, t)) ∧
    (lib.fz_load_page ctx doc pageno s = (FzOutcome.thrown e, t) →
      mp_load_page lib rp ctx doc pageno s = (NULL, t)) ∧
    (lib.fz_load_outline ctx doc s = (FzOutcome.thrown e, t) →
      mp_load_outline lib rp ctx doc s = (NULL, t)) ∧
    (lib.fz_count_pages ctx doc s = (FzOutcome.thrown e, t) →
      mp_count_pages lib ri ctx doc s = (-1, t)) ∧
    (lib.fz_new_stext_page_from_page ctx page options s = (FzOutcome.thrown e, t) →
      mp_new_stext_page_from_page lib rp ctx page options s = (NULL, t)) := by
  exact ⟨fun h => WRAP_eq_thrown _ _ _ _ _ _ h, fun h => WRAP_eq_thrown _ _ _ _ _ _ h,
    fun h => WRAP_eq_thrown _ _ _ _ _ _ h, fun h => WRAP_eq_thrown _ _ _ _ _ _ h,
    fun h => WRAP_eq_thrown _ _ _ _ _ _ h, fun h => WRAP_eq_thrown _ _ _ _ _ _ h⟩

/-- Witness for C1 at a concrete library in which every entry point throws. -/
theorem mp_exception_returns_sentinel_witness :
    mp_open_document (throwAll ⟨7, "boom"⟩) 99 1 "a" 0 = (NULL, 1) ∧
    mp_open_document_with_stream (throwAll ⟨7, "boom"⟩) 99 1 "pdf" 2 0 = (NULL, 1) ∧
    mp_load_page (throwAll ⟨7, "boom"⟩) 99 1 3 (-4) 0 = (NULL, 1) ∧
    mp_load_outline (throwAll ⟨7, "boom"⟩) 99 1 3 0 = (NULL, 1) ∧
    mp_count_pages (throwAll ⟨7, "boom"⟩) 99 1 3 0 = (-1, 1) ∧
    mp_new_stext_page_from_page (throwAll ⟨7, "boom"⟩) 99 1 5 6 0 = (NULL, 1) := by
  have h := mp_exception_returns_sentinel (throwAll ⟨7, "boom"⟩) 99 99 1 "a" "pdf" 2 3
    (-4) 5 6 0 ⟨7, "boom"⟩ 1
  exact ⟨h.1 rfl, h.2.1 rfl, h.2.2.1 rfl, h.2.2.2.1 rfl, h.2.2.2.2.1 rfl, h.2.2.2.2.2 rfl⟩

/-- C2: for every wrapped operation and every input, if the underlying
library call completes normally with value v, the wrapped operation returns
exactly v, unchanged, together with the post-state left by the call. -/
theorem mp_success_returns_value {σ : Type} (lib : MuPDFLib σ)
    (rp : Ptr) (ri : Int) (ctx : FzContext) (path kind : String) (stream : FzStream)
    (doc : FzDocument) (pageno : Int) (page : FzPage) (options : FzStextOptions)
    (vdoc vdocs vpage voutl vstext : Ptr) (vcount : Int) (s : σ) (t : σ) :
    (lib.fz_open_document ctx path s = (FzOutcome.ok vdoc, t) →
      mp_open_document lib rp ctx path s = (vdoc, t)) ∧
    (lib.fz_open_document_with_stream ctx kind stream s = (FzOutcome.ok vdocs, t) →
      mp_open_document_with_stream lib rp ctx kind stream s = (vdocs, t)) ∧
    (lib.fz_load_page ctx doc pageno s = (FzOutcome.ok vpage, t) →
      mp_load_page lib rp ctx doc pageno s = (vpage, t)) ∧
    (lib.fz_load_outline ctx doc s = (FzOutcome.ok voutl, t) →
      mp_load_outline lib rp ctx doc s = (voutl, t)) ∧
    (lib.fz_count_pages ctx doc s = (FzOutcome.ok vcount, t) →
      mp_count_pages lib ri ctx doc s = (vcount, t)) ∧
    (lib.fz_new_stext_page_from_page ctx page options s = (FzOutcome.ok vstext, t) →
      mp_new_stext_page_from_page lib rp ctx page options s = (vstext, t)) := by
  exact ⟨fun h => WRAP_eq_ok _ _ _ _ _ _ h, fun h => WRAP_eq_ok _ _ _ _ _ _ h,
    fun h => WRAP_eq_ok _ _ _ _ _ _ h, fun h => WRAP_eq_ok _ _ _ _ _ _ h,
    fun h => WRAP_eq_ok _ _ _ _ _ _ h, fun h => WRAP_eq_ok _ _ _ _ _ _ h⟩

/-- Witness for C2 at a concrete library in which every entry point returns
normally. -/
theorem mp_success_returns_value_witness :
    mp_open_document (okAll 42 5) 99 1 "a" 0 = (42, 1) ∧
    mp_open_document_with_stream (okAll 42 5) 99 1 "pdf" 2 0 = (42, 1) ∧
    mp_load_page (okAll 42 5) 99 1 3 (-4) 0 = (42, 1) ∧
    mp_load_outline (okAll 42 5) 99 1 3 0 = (42, 1) ∧
    mp_count_pages (okAll 42 5) 99 1 3 0 = (5, 1) ∧
    mp_new_stext_page_from_page (okAll 42 5) 99 1 5 6 0 = (42, 1) := by
  have h := mp_success_returns_value (okAll 42 5) 99 99 1 "a" "pdf" 2 3 (-4) 5 6
    42 42 42 42 42 5 0 1
  exact ⟨h.1 rfl, h.2.1 rfl, h.2.2.1 rfl, h.2.2.2.1 rfl, h.2.2.2.2.1 rfl, h.2.2.2.2.2 rfl⟩

/-- C3: the failure sentinel of each wrapped operation is type-correct: on an
internal exception every pointer-returning operation yields the null handle,
and mp_count_pages yields the integer -1 exactly, which is neither 0 nor any
other negative number. -/
theorem mp_sentinels_type_correct {σ : Type} (lib : MuPDFLib σ)
    (rp : Ptr) (ri : Int) (ctx : FzContext) (path kind : String) (stream : FzStream)
    (doc : FzDocument) (pageno : Int) (page : FzPage) (options : FzStextOptions)
    (s : σ) (e : FzError) (t : σ) :
    (lib.fz_open_document ctx path s = (FzOutcome.thrown e, t) →
      (mp_open_document lib rp ctx path s).1 = NULL) ∧
    (lib.fz_open_document_with_stream ctx kind stream s = (FzOutcome.thrown e, t) →
      (mp_open_document_with_stream lib rp ctx kind stream s).1 = NULL) ∧
    (lib.fz_load_page ctx doc pageno s = (FzOutcome.thrown e, t) →
      (mp_load_page lib rp ctx doc pageno s).1 = NULL) ∧
    (lib.fz_load_outline ctx doc s = (FzOutcome.thrown e, t) →
      (mp_load_outline lib rp ctx doc s).1 = NULL) ∧
    (lib.fz_new_stext_page_from_page ctx page options s = (FzOutcome.thrown e, t) →
      (mp_new_stext_page_from_page lib rp ctx page options s).1 = NULL) ∧
    (lib.fz_count_pages ctx doc s = (FzOutcome.thrown e, t) →
      (mp_count_pages lib ri ctx doc s).1 = -1 ∧
      (mp_count_pages lib ri ctx doc s).1 ≠ 0 ∧
      (mp_count_pages lib ri ctx doc s).1 < 0) := by
  refine ⟨fun h => ?_, fun h => ?_, fun h => ?_, fun h => ?_, fun h => ?_, fun h => ?_⟩
  · rw [show mp_open_document lib rp ctx path s = (NULL, t) from
      WRAP_eq_thrown _ _ _ _ _ _ h]
  · rw [show mp_open_document_with_stream lib rp ctx kind stream s = (NULL, t) from
      WRAP_eq_thrown _ _ _ _ _ _ h]
  · rw [show mp_load_page lib rp ctx doc pageno s = (NULL, t) from
      WRAP_eq_thrown _ _ _ _ _ _ h]
  · rw [show mp_load_outline lib rp ctx doc s = (NULL, t) from
      WRAP_eq_thrown _ _ _ _ _ _ h]
  · rw [show mp_new_stext_page_from_page lib rp ctx page options s = (NULL, t) from
      WRAP_eq_thrown _ _ _ _ _ _ h]
  · rw [show mp_count_pages lib ri ctx doc s = (-1, t) from
      WRAP_eq_thrown _ _ _ _ _ _ h]
    exact ⟨rfl, by norm_num, by norm_num⟩

/-- Witness for C3 at a concrete library in which every entry point throws. -/
theorem mp_sentinels_type_correct_witness :
    (mp_open_document (throwAll ⟨2, "bad"⟩) 77 1 "b" 0).1 = NULL ∧
    (mp_open_document_with_stream (throwAll ⟨2, "bad"⟩) 77 1 "xps" 2 0).1 = NULL ∧
    (mp_load_page (throwAll ⟨2, "bad"⟩) 77 1 3 9 0).1 = NULL ∧
    (mp_load_outline (throwAll ⟨2, "bad"⟩) 77 1 3 0).1 = NULL ∧
    (mp_new_stext_page_from_page (throwAll ⟨2, "bad"⟩) 77 1 5 6 0).1 = NULL ∧
    (mp_count_pages (throwAll ⟨2, "bad"⟩) 77 1 3 0).1 = -1 := by
  have h := mp_sentinels_type_correct (throwAll ⟨2, "bad"⟩) 77 77 1 "b" "xps" 2 3 9 5 6 0
    ⟨2, "bad"⟩ 1
  exact ⟨h.1 rfl, h.2.1 rfl, h.2.2.1 rfl, h.2.2.2.1 rfl, h.2.2.2.2.1 rfl,
    (h.2.2.2.2.2 rfl).1⟩

/-- C4: under the underlying library contract that a successful page count is
non-negative, mp_count_pages returns a value at least 0 whenever the
underlying call succeeds, and returns -1 only when the underlying call raised
an internal exception. -/
theorem mp_count_pages_nonneg_on_success {σ : Type} (lib : MuPDFLib σ) (ri : Int)
    (ctx : FzContext) (doc : FzDocument) (s : σ)
    (hspec : ∀ v t, lib.fz_count_pages ctx doc s = (FzOutcome.ok v, t) → 0 ≤ v) :
    ((∃ v t, lib.fz_count_pages ctx doc s = (FzOutcome.ok v, t)) →
      0 ≤ (mp_count_pages lib ri ctx doc s).1) ∧
    ((mp_count_pages lib ri ctx doc s).1 = -1 →
      ∃ e t, lib.fz_count_pages ctx doc s = (FzOutcome.thrown e, t)) := by
  constructor
  · rintro ⟨v, t, h⟩
    rw [show mp_count_pages lib ri ctx doc s = (v, t) from WRAP_eq_ok _ _ _ _ _ _ h]
    exact hspec v t h
  · intro hm
    rcases h : lib.fz_count_pages ctx doc s with ⟨o, t⟩
    cases o with
    | ok v =>
      rw [show mp_count_pages lib ri ctx doc s = (v, t) from WRAP_eq_ok _ _ _ _ _ _ h] at hm
      have hv := hspec v t h
      omega
    | thrown e => exact ⟨e, t, rfl⟩

/-- Witness for C4 at a concrete library whose page count call succeeds with
the value 5. -/
theorem mp_count_pages_nonneg_on_success_witness :
    0 ≤ (mp_count_pages (okAll 42 5) 99 1 3 0).1 := by
  have h := mp_count_pages_nonneg_on_success (okAll 42 5) 99 1 3 0
    (by
      intro v t hv
      simp [okAll] at hv
      omega)
  exact h.1 ⟨5, 1, rfl⟩

/-- C5: the wrapper layer introduces no nondeterminism of its own: for every
wrapped operation, two invocations with the same arguments whose underlying
calls produce the same outcome produce the same wrapped result, whatever junk
each invocation finds in the uninitialized local. -/
theorem mp_no_added_nondeterminism {σ : Type} (lib : MuPDFLib σ)
    (rp rq : Ptr) (ri rj : Int) (ctx : FzContext) (path kind : String) (stream : FzStream)
    (doc : FzDocument) (pageno : Int) (page : FzPage) (options : FzStextOptions)
    (s₁ s₂ : σ) :
    (lib.fz_open_document ctx path s₁ = lib.fz_open_document ctx path s₂ →
      mp_open_document lib rp ctx path s₁ = mp_open_document lib rq ctx path s₂) ∧
    (lib.fz_open_document_with_stream ctx kind stream s₁
        = lib.fz_open_document_with_stream ctx kind stream s₂ →
      mp_open_document_with_stream lib rp ctx kind stream s₁
        = mp_open_document_with_stream lib rq ctx kind stream s₂) ∧
    (lib.fz_load_page ctx doc pageno s₁ = lib.fz_load_page ctx doc pageno s₂ →
      mp_load_page lib rp ctx doc pageno s₁ = mp_load_page lib rq ctx doc pageno s₂) ∧
    (lib.fz_load_outline ctx doc s₁ = lib.fz_load_outline ctx doc s₂ →
      mp_load_outline lib rp ctx doc s₁ = mp_load_outline lib rq ctx doc s₂) ∧
    (lib.fz_count_pages ctx doc s₁ = lib.fz_count_pages ctx doc s₂ →
      mp_count_pages lib ri ctx doc s₁ = mp_count_pages lib rj ctx doc s₂) ∧
    (lib.fz_new_stext_page_from_page ctx page options s₁
        = lib.fz_new_stext_page_from_page ctx page options s₂ →
      mp_new_stext_page_from_page lib rp ctx page options s₁
        = mp_new_stext_page_from_page lib rq ctx page options s₂) := by
  exact ⟨fun h => WRAP_congr _ _ _ _ _ _ h, fun h => WRAP_congr _ _ _ _ _ _ h,
    fun h => WRAP_congr _ _ _ _ _ _ h, fun h => WRAP_congr _ _ _ _ _ _ h,
    fun h => WRAP_congr _ _ _ _ _ _ h, fun h => WRAP_congr _ _ _ _ _ _ h⟩

/-- Witness for C5: two invocations at the same concrete library and state,
with different junk in the local, agree. -/
theorem mp_no_added_nondeterminism_witness :
    mp_open_document (okAll 42 5) 7 1 "a" 0 = mp_open_document (okAll 42 5) 8 1 "a" 0 ∧
    mp_open_document_with_stream (okAll 42 5) 7 1 "pdf" 2 0
      = mp_open_document_with_stream (okAll 42 5) 8 1 "pdf" 2 0 ∧
    mp_load_page (okAll 42 5) 7 1 3 0 0 = mp_load_page (okAll 42 5) 8 1 3 0 0 ∧
    mp_load_outline (okAll 42 5) 7 1 3 0 = mp_load_outline (okAll 42 5) 8 1 3 0 ∧
    mp_count_pages (okAll 42 5) 7 1 3 0 = mp_count_pages (okAll 42 5) 8 1 3 0 ∧
    mp_new_stext_page_from_page (okAll 42 5) 7 1 5 6 0
      = mp_new_stext_page_from_page (okAll 42 5) 8 1 5 6 0 := by
  have h := mp_no_added_nondeterminism (okAll 42 5) 7 8 7 8 1 "a" "pdf" 2 3 0 5 6 0 0
  exact ⟨h.1 rfl, h.2.1 rfl, h.2.2.1 rfl, h.2.2.2.1 rfl, h.2.2.2.2.1 rfl, h.2.2.2.2.2 rfl⟩

/-- C6: the wrapper holds no state of its own and performs no mutation beyond
the single underlying call: for every wrapped operation, on both the success
path and the failure path, the post-state of the wrapped operation is exactly
the post-state left by its one underlying call. -/
theorem mp_state_frame {σ : Type} (lib : MuPDFLib σ) (rp : Ptr) (ri : Int)
    (ctx : FzContext) (path kind : String) (stream : FzStream) (doc : FzDocument)
    (pageno : Int) (page : FzPage) (options : FzStextOptions) (s : σ) :
    (mp_open_document lib rp ctx path s).2 = (lib.fz_open_document ctx path s).2 ∧
    (mp_open_document_with_stream lib rp ctx kind stream s).2
      = (lib.fz_open_document_with_stream ctx kind stream s).2 ∧
    (mp_load_page lib rp ctx doc pageno s).2 = (lib.fz_load_page ctx doc pageno s).2 ∧
    (mp_load_outline lib rp ctx doc s).2 = (lib.fz_load_outline ctx doc s).2 ∧
    (mp_count_pages lib ri ctx doc s).2 = (lib.fz_count_pages ctx doc s).2 ∧
    (mp_new_stext_page_from_page lib rp ctx page options s).2
      = (lib.fz_new_stext_page_from_page ctx page options s).2 := by
  exact ⟨WRAP_snd _ _ _ _, WRAP_snd _ _ _ _, WRAP_snd _ _ _ _, WRAP_snd _ _ _ _,
    WRAP_snd _ _ _ _, WRAP_snd _ _ _ _⟩

/-- C7: for every wrapped operation, a run whose underlying call succeeds
with a value equal to the sentinel and a run whose underlying call raises an
internal exception return the same value: the caller cannot tell such a
success from a failure by the return value alone. -/
theorem mp_sentinel_success_indistinguishable {σ₁ σ₂ : Type}
    (lib₁ : MuPDFLib σ₁) (lib₂ : MuPDFLib σ₂) (rp rq : Ptr) (ri rj : Int)
    (ctx : FzContext) (path kind : String) (stream : FzStream) (doc : FzDocument)
    (pageno : Int) (page : FzPage) (options : FzStextOptions)
    (s₁ : σ₁) (s₂ : σ₂) (e : FzError) (t₁ : σ₁) (t₂ : σ₂) :
    (lib₁.fz_open_document ctx path s₁ = (FzOutcome.ok NULL, t₁) →
      lib₂.fz_open_document ctx path s₂ = (FzOutcome.thrown e, t₂) →
      (mp_open_document lib₁ rp ctx path s₁).1 = (mp_open_document lib₂ rq ctx path s₂).1) ∧
    (lib₁.fz_open_document_with_stream ctx kind stream s₁ = (FzOutcome.ok NULL, t₁) →
      lib₂.fz_open_document_with_stream ctx kind stream s₂ = (FzOutcome.thrown e, t₂) →
      (mp_open_document_with_stream lib₁ rp ctx kind stream s₁).1
        = (mp_open_document_with_stream lib₂ rq ctx kind stream s₂).1) ∧
    (lib₁.fz_load_page ctx doc pageno s₁ = (FzOutcome.ok NULL, t₁) →
      lib₂.fz_load_page ctx doc pageno s₂ = (FzOutcome.thrown e, t₂) →
      (mp_load_page lib₁ rp ctx doc pageno s₁).1
        = (mp_load_page lib₂ rq ctx doc pageno s₂).1) ∧
    (lib₁.fz_load_outline ctx doc s₁ = (FzOutcome.ok NULL, t₁) →
      lib₂.fz_load_outline ctx doc s₂ = (FzOutcome.thrown e, t₂) →
      (mp_load_outline lib₁ rp ctx doc s₁).1 = (mp_load_outline lib₂ rq ctx doc s₂).1) ∧
    (lib₁.fz_count_pages ctx doc s₁ = (FzOutcome.ok (-1), t₁) →
      lib₂.fz_count_pages ctx doc s₂ = (FzOutcome.thrown e, t₂) →
      (mp_count_pages lib₁ ri ctx doc s₁).1 = (mp_count_pages lib₂ rj ctx doc s₂).1) ∧
    (lib₁.fz_new_stext_page_from_page ctx page options s₁ = (FzOutcome.ok NULL, t₁) →
      lib₂.fz_new_stext_page_from_page ctx page options s₂ = (FzOutcome.thrown e, t₂) →
      (mp_new_stext_page_from_page lib₁ rp ctx page options s₁).1
        = (mp_new_stext_page_from_page lib₂ rq ctx page options s₂).1) := by
  refine ⟨fun h₁ h₂ => ?_, fun h₁ h₂ => ?_, fun h₁ h₂ => ?_, fun h₁ h₂ => ?_,
    fun h₁ h₂ => ?_, fun h₁ h₂ => ?_⟩
  · rw [show mp_open_document lib₁ rp ctx path s₁ = (NULL, t₁) from
        WRAP_eq_ok _ _ _ _ _ _ h₁,
      show mp_open_document lib₂ rq ctx path s₂ = (NULL, t₂) from
        WRAP_eq_thrown _ _ _ _ _ _ h₂]
  · rw [show mp_open_document_with_stream lib₁ rp ctx kind stream s₁ = (NULL, t₁) from
        WRAP_eq_ok _ _ _ _ _ _ h₁,
      show mp_open_document_with_stream lib₂ rq ctx kind stream s₂ = (NULL, t₂) from
        WRAP_eq_thrown _ _ _ _ _ _ h₂]
  · rw [show mp_load_page lib₁ rp ctx doc pageno s₁ = (NULL, t₁) from
        WRAP_eq_ok _ _ _ _ _ _ h₁,
      show mp_load_page lib₂ rq ctx doc pageno s₂ = (NULL, t₂) from
        WRAP_eq_thrown _ _ _ _ _ _ h₂]
  · rw [show mp_load_outline lib₁ rp ctx doc s₁ = (NULL, t₁) from
        WRAP_eq_ok _ _ _ _ _ _ h₁,
      show mp_load_outline lib₂ rq ctx doc s₂ = (NULL, t₂) from
        WRAP_eq_thrown _ _ _ _ _ _ h₂]
  · rw [show mp_count_pages lib₁ ri ctx doc s₁ = (-1, t₁) from
        WRAP_eq_ok _ _ _ _ _ _ h₁,
      show mp_count_pages lib₂ rj ctx doc s₂ = (-1, t₂) from
        WRAP_eq_thrown _ _ _ _ _ _ h₂]
  · rw [show mp_new_stext_page_from_page lib₁ rp ctx page options s₁ = (NULL, t₁) from
        WRAP_eq_ok _ _ _ _ _ _ h₁,
      show mp_new_stext_page_from_page lib₂ rq ctx page options s₂ = (NULL, t₂) from
        WRAP_eq_thrown _ _ _ _ _ _ h₂]

/-- Witness for C7: a concrete run whose calls succeed with the sentinel
values and a concrete run whose calls throw return the same values. -/
theorem mp_sentinel_success_indistinguishable_witness :
    (mp_open_document (okAll NULL (-1)) 7 1 "a" 0).1
      = (mp_open_document (throwAll ⟨3, "err"⟩) 8 1 "a" 0).1 ∧
    (mp_open_document_with_stream (okAll NULL (-1)) 7 1 "pdf" 2 0).1
      = (mp_open_document_with_stream (throwAll ⟨3, "err"⟩) 8 1 "pdf" 2 0).1 ∧
    (mp_load_page (okAll NULL (-1)) 7 1 3 0 0).1
      = (mp_load_page (throwAll ⟨3, "err"⟩) 8 1 3 0 0).1 ∧
    (mp_load_outline (okAll NULL (-1)) 7 1 3 0).1
      = (mp_load_outline (throwAll ⟨3, "err"⟩) 8 1 3 0).1 ∧
    (mp_count_pages (okAll NULL (-1)) 7 1 3 0).1
      = (mp_count_pages (throwAll ⟨3, "err"⟩) 8 1 3 0).1 ∧
    (mp_new_stext_page_from_page (okAll NULL (-1)) 7 1 5 6 0).1
      = (mp_new_stext_page_from_page (throwAll ⟨3, "err"⟩) 8 1 5 6 0).1 := by
  have h := mp_sentinel_success_indistinguishable (okAll NULL (-1)) (throwAll ⟨3, "err"⟩)
    7 8 7 8 1 "a" "pdf" 2 3 0 5 6 0 0 ⟨3, "err"⟩ 1 1
  exact ⟨h.1 rfl rfl, h.2.1 rfl rfl, h.2.2.1 rfl rfl, h.2.2.2.1 rfl rfl,
    h.2.2.2.2.1 rfl rfl, h.2.2.2.2.2 rfl rfl⟩

/-- C8: for every wrapped operation, the value returned on failure does not
depend on the cause, code, or message of the internal exception: any two
failing runs return the same type-appropriate sentinel, whatever the two
exceptions carried, so no exception detail reaches the return value. -/
theorem mp_failure_value_ignores_exception {σ₁ σ₂ : Type}
    (lib₁ : MuPDFLib σ₁) (lib₂ : MuPDFLib σ₂) (rp rq : Ptr) (ri rj : Int)
    (ctx : FzContext) (path kind : String) (stream : FzStream) (doc : FzDocument)
    (pageno : Int) (page : FzPage) (options : FzStextOptions)
    (s₁ : σ₁) (s₂ : σ₂) (e₁ e₂ : FzError) (t₁ : σ₁) (t₂ : σ₂) :
    (lib₁.fz_open_document ctx path s₁ = (FzOutcome.thrown e₁, t₁) →
      lib₂.fz_open_document ctx path s₂ = (FzOutcome.thrown e₂, t₂) →
      (mp_open_document lib₁ rp ctx path s₁).1 = NULL ∧
      (mp_open_document lib₂ rq ctx path s₂).1 = NULL) ∧
    (lib₁.fz_open_document_with_stream ctx kind stream s₁ = (FzOutcome.thrown e₁, t₁) →
      lib₂.fz_open_document_with_stream ctx kind stream s₂ = (FzOutcome.thrown e₂, t₂) →
      (mp_open_document_with_stream lib₁ rp ctx kind stream s₁).1 = NULL ∧
      (mp_open_document_with_stream lib₂ rq ctx kind stream s₂).1 = NULL) ∧
    (lib₁.fz_load_page ctx doc pageno s₁ = (FzOutcome.thrown e₁, t₁) →
      lib₂.fz_load_page ctx doc pageno s₂ = (FzOutcome.thrown e₂, t₂) →
      (mp_load_page lib₁ rp ctx doc pageno s₁).1 = NULL ∧
      (mp_load_page lib₂ rq ctx doc pageno s₂).1 = NULL) ∧
    (lib₁.fz_load_outline ctx doc s₁ = (FzOutcome.thrown e₁, t₁) →
      lib₂.fz_load_outline ctx doc s₂ = (FzOutcome.thrown e₂, t₂) →
      (mp_load_outline lib₁ rp ctx doc s₁).1 = NULL ∧
      (mp_load_outline lib₂ rq ctx doc s₂).1 = NULL) ∧
    (lib₁.fz_count_pages ctx doc s₁ = (FzOutcome.thrown e₁, t₁) →
      lib₂.fz_count_pages ctx doc s₂ = (FzOutcome.thrown e₂, t₂) →
      (mp_count_pages lib₁ ri ctx doc s₁).1 = -1 ∧
      (mp_count_pages lib₂ rj ctx doc s₂).1 = -1) ∧
    (lib₁.fz_new_stext_page_from_page ctx page options s₁ = (FzOutcome.thrown e₁, t₁) →
      lib₂.fz_new_stext_page_from_page ctx page options s₂ = (FzOutcome.thrown e₂, t₂) →
      (mp_new_stext_page_from_page lib₁ rp ctx page options s₁).1 = NULL ∧
      (mp_new_stext_page_from_page lib₂ rq ctx page options s₂).1 = NULL) := by
  refine ⟨fun h₁ h₂ => ⟨?_, ?_⟩, fun h₁ h₂ => ⟨?_, ?_⟩, fun h₁ h₂ => ⟨?_, ?_⟩,
    fun h₁ h₂ => ⟨?_, ?_⟩, fun h₁ h₂ => ⟨?_, ?_⟩, fun h₁ h₂ => ⟨?_, ?_⟩⟩
  · rw [show mp_open_document lib₁ rp ctx path s₁ = (NULL, t₁) from
      WRAP_eq_thrown _ _ _ _ _ _ h₁]
  · rw [show mp_open_document lib₂ rq ctx path s₂ = (NULL, t₂) from
      WRAP_eq_thrown _ _ _ _ _ _ h₂]
  · rw [show mp_open_document_with_stream lib₁ rp ctx kind stream s₁ = (NULL, t₁) from
      WRAP_eq_thrown _ _ _ _ _ _ h₁]
  · rw [show mp_open_document_with_stream lib₂ rq ctx kind stream s₂ = (NULL, t₂) from
      WRAP_eq_thrown _ _ _ _ _ _ h₂]
  · rw [show mp_load_page lib₁ rp ctx doc pageno s₁ = (NULL, t₁) from
      WRAP_eq_thrown _ _ _ _ _ _ h₁]
  · rw [show mp_load_page lib₂ rq ctx doc pageno s₂ = (NULL, t₂) from
      WRAP_eq_thrown _ _ _ _ _ _ h₂]
  · rw [show mp_load_outline lib₁ rp ctx doc s₁ = (NULL, t₁) from
      WRAP_eq_thrown _ _ _ _ _ _ h₁]
  · rw [show mp_load_outline lib₂ rq ctx doc s₂ = (NULL, t₂) from
      WRAP_eq_thrown _ _ _ _ _ _ h₂]
  · rw [show mp_count_pages lib₁ ri ctx doc s₁ = (-1, t₁) from
      WRAP_eq_thrown _ _ _ _ _ _ h₁]
  · rw [show mp_count_pages lib₂ rj ctx doc s₂ = (-1, t₂) from
      WRAP_eq_thrown _ _ _ _ _ _ h₂]
  · rw [show mp_new_stext_page_from_page lib₁ rp ctx page options s₁ = (NULL, t₁) from
      WRAP_eq_thrown _ _ _ _ _ _ h₁]
  · rw [show mp_new_stext_page_from_page lib₂ rq ctx page options s₂ = (NULL, t₂) from
      WRAP_eq_thrown _ _ _ _ _ _ h₂]

/-- Witness for C8 at two concrete libraries throwing exceptions that differ
in both code and message. -/
theorem mp_failure_value_ignores_exception_witness :
    (mp_open_document (throwAll ⟨1, "x"⟩) 7 1 "a" 0).1 = NULL ∧
    (mp_open_document (throwAll ⟨2, "y"⟩) 8 1 "a" 0).1 = NULL ∧
    (mp_count_pages (throwAll ⟨1, "x"⟩) 7 1 3 0).1 = -1 ∧
    (mp_count_pages (throwAll ⟨2, "y"⟩) 8 1 3 0).1 = -1 := by
  have h := mp_failure_value_ignores_exception (throwAll ⟨1, "x"⟩) (throwAll ⟨2, "y"⟩)
    7 8 7 8 1 "a" "pdf" 2 3 0 5 6 0 0 ⟨1, "x"⟩ ⟨2, "y"⟩ 1 1
  exact ⟨(h.1 rfl rfl).1, (h.1 rfl rfl).2, (h.2.2.2.2.1 rfl rfl).1, (h.2.2.2.2.1 rfl rfl).2⟩

/-- C9: no wrapped operation validates its arguments: for every input
whatsoever, including the null handle 0 as document or page, a negative page
index, or any path, kind, or stream, the wrapper performs exactly one
invocation of the corresponding underlying entry point, passing all its
arguments verbatim and in order, as the instrumented run shows: the trace
grows by exactly the one record of that invocation, and value and state are
those of the uninstrumented run. -/
theorem mp_forwards_args_once {σ : Type} (lib : MuPDFLib σ) (rp : Ptr) (ri : Int)
    (ctx : FzContext) (path kind : String) (stream : FzStream) (doc : FzDocument)
    (pageno : Int) (page : FzPage) (options : FzStextOptions) (s : σ)
    (tr : List CallEvent) :
    mp_open_document (instrument lib) rp ctx path (s, tr)
      = ((mp_open_document lib rp ctx path s).1,
         ((mp_open_document lib rp ctx path s).2, tr ++ [CallEvent.open_document ctx path])) ∧
    mp_open_document_with_stream (instrument lib) rp ctx kind stream (s, tr)
      = ((mp_open_document_with_stream lib rp ctx kind stream s).1,
         ((mp_open_document_with_stream lib rp ctx kind stream s).2,
          tr ++ [CallEvent.open_document_with_stream ctx kind stream])) ∧
    mp_load_page (instrument lib) rp ctx doc pageno (s, tr)
      = ((mp_load_page lib rp ctx doc pageno s).1,
         ((mp_load_page lib rp ctx doc pageno s).2,
          tr ++ [CallEvent.load_page ctx doc pageno])) ∧
    mp_load_outline (instrument lib) rp ctx doc (s, tr)
      = ((mp_load_outline lib rp ctx doc s).1,
         ((mp_load_outline lib rp ctx doc s).2, tr ++ [CallEvent.load_outline ctx doc])) ∧
    mp_count_pages (instrument lib) ri ctx doc (s, tr)
      = ((mp_count_pages lib ri ctx doc s).1,
         ((mp_count_pages lib ri ctx doc s).2, tr ++ [CallEvent.count_pages ctx doc])) ∧
    mp_new_stext_page_from_page (instrument lib) rp ctx page options (s, tr)
      = ((mp_new_stext_page_from_page lib rp ctx page options s).1,
         ((mp_new_stext_page_from_page lib rp ctx page options s).2,
          tr ++ [CallEvent.new_stext_page_from_page ctx page options])) := by
  exact ⟨WRAP_logCall _ _ _ _ _ _, WRAP_logCall _ _ _ _ _ _, WRAP_logCall _ _ _ _ _ _,
    WRAP_logCall _ _ _ _ _ _, WRAP_logCall _ _ _ _ _ _, WRAP_logCall _ _ _ _ _ _⟩

/-- C10: every wrapped operation is total in the outcome of its underlying
call: the WRAP body yields the value of the call on normal completion and
the failure value on the exception path, and on no path does the
indeterminate initial content of the uninitialized local reach the result,
as its value is irrelevant for every wrapped operation. -/
theorem mp_total_result {σ β : Type} (lib : MuPDFLib σ) (b₁ b₂ fv : β)
    (call : LibCall σ β) (rp rq : Ptr) (ri rj : Int) (ctx : FzContext)
    (path kind : String) (stream : FzStream) (doc : FzDocument) (pageno : Int)
    (page : FzPage) (options : FzStextOptions) (s : σ) :
    ((∃ v, (call s).1 = FzOutcome.ok v ∧ (WRAP b₁ fv call s).1 = v) ∨
      ((∃ e, (call s).1 = FzOutcome.thrown e) ∧ (WRAP b₁ fv call s).1 = fv)) ∧
    WRAP b₁ fv call s = WRAP b₂ fv call s ∧
    mp_open_document lib rp ctx path s = mp_open_document lib rq ctx path s ∧
    mp_open_document_with_stream lib rp ctx kind stream s
      = mp_open_document_with_stream lib rq ctx kind stream s ∧
    mp_load_page lib rp ctx doc pageno s = mp_load_page lib rq ctx doc pageno s ∧
    mp_load_outline lib rp ctx doc s = mp_load_outline lib rq ctx doc s ∧
    mp_count_pages lib ri ctx doc s = mp_count_pages lib rj ctx doc s ∧
    mp_new_stext_page_from_page lib rp ctx page options s
      = mp_new_stext_page_from_page lib rq ctx page options s := by
  refine ⟨?_, WRAP_ret0_irrel _ _ _ _ _, WRAP_ret0_irrel _ _ _ _ _,
    WRAP_ret0_irrel _ _ _ _ _, WRAP_ret0_irrel _ _ _ _ _, WRAP_ret0_irrel _ _ _ _ _,
    WRAP_ret0_irrel _ _ _ _ _, WRAP_ret0_irrel _ _ _ _ _⟩
  rcases h : call s with ⟨o, t⟩
  cases o with
  | ok v =>
    left
    refine ⟨v, rfl, ?_⟩
    rw [show WRAP b₁ fv call s = (v, t) from WRAP_eq_ok _ _ _ _ _ _ h]
  | thrown e =>
    right
    refine ⟨⟨e, rfl⟩, ?_⟩
    rw [show WRAP b₁ fv call s = (fv, t) from WRAP_eq_thrown _ _ _ _ _ _ h]
